import Mathlib

/-!
Shallow embedding of the orchestration-and-resilience core of the repository:
the circuit breaker (app/services/ai_circuit_breaker.py), the tiered rate
limiter (app/core/security.py), the coordinator workflows
(app/ai_agents/coordinator_agent.py), the agent dispatchers, the resilient
OpenAI invoker (app/services/ai_service.py) and the cache service
(app/services/cache_service.py).

Wall-clock readings (datetime.utcnow, time.time) are modelled as integers
(seconds), threaded explicitly through every operation: every comparison the
source performs on clock values is an order comparison or a subtraction, which
the integer model represents exactly.  Remote calls and
sub-agent calls are modelled by their outcomes, passed in as parameters.
-/

/- ===================================================================
   Circuit breaker: app/services/ai_circuit_breaker.py, class AICircuitBreaker.
   Both instances used for the model service are constructed with the default
   expected_exception = Exception, so every raised error is a recorded failure.
   =================================================================== -/

inductive CircuitState
  | CLOSED
  | OPEN
  | HALF_OPEN
deriving DecidableEq, Repr

/-- State of AICircuitBreaker.  The transition log stores
(timestamp, new state label, failure_count, success_count) as in
_record_state_transition. -/
structure AICircuitBreaker where
  failure_threshold : ℕ
  timeout_seconds : ℤ
  failure_count : ℕ
  success_count : ℕ
  last_failure_time : Option ℤ
  state : CircuitState
  next_attempt_time : Option ℤ
  total_requests : ℕ
  total_failures : ℕ
  state_transitions : List (ℤ × String × ℕ × ℕ)
deriving DecidableEq, Repr

/-- AICircuitBreaker.__init__ . -/
def mkBreaker (failure_threshold : ℕ) (timeout_seconds : ℤ) : AICircuitBreaker :=
  ⟨failure_threshold, timeout_seconds, 0, 0, none, .CLOSED, none, 0, 0, []⟩

/-- AICircuitBreaker._record_state_transition : append to the log and keep
only the last 100 entries. -/
def record_state_transition (s : AICircuitBreaker) (now : ℤ) (new_state : String) :
    AICircuitBreaker :=
  let log := s.state_transitions ++ [(now, new_state, s.failure_count, s.success_count)]
  { s with state_transitions := if 100 < log.length then log.drop (log.length - 100) else log }

/-- AICircuitBreaker._should_attempt_reset :
next_attempt_time is not None and utcnow() >= next_attempt_time. -/
def should_attempt_reset (s : AICircuitBreaker) (now : ℤ) : Bool :=
  match s.next_attempt_time with
  | some t => decide (t ≤ now)
  | none => false

/-- AICircuitBreaker._on_success . -/
def on_success (s : AICircuitBreaker) (now : ℤ) : AICircuitBreaker :=
  let s := { s with failure_count := 0, success_count := s.success_count + 1 }
  let s :=
    if s.state ≠ CircuitState.CLOSED then
      record_state_transition { s with state := .CLOSED } now "CLOSED"
    else s
  { s with next_attempt_time := none }

/-- AICircuitBreaker._on_failure . -/
def on_failure (s : AICircuitBreaker) (now : ℤ) : AICircuitBreaker :=
  let s := { s with failure_count := s.failure_count + 1,
                    total_failures := s.total_failures + 1,
                    last_failure_time := some now }
  if s.failure_threshold ≤ s.failure_count then
    let s :=
      if s.state ≠ CircuitState.OPEN then
        record_state_transition { s with state := .OPEN } now "OPEN"
      else s
    { s with next_attempt_time := some (now + s.timeout_seconds) }
  else s

/-- First half of AICircuitBreaker.call_with_fallback, up to the await of the
wrapped function: increment total_requests, and decide whether the wrapped
function is invoked (true) or the call is rejected (false: the fallback is
awaited if provided, otherwise an exception is raised; neither path touches
the breaker state further). -/
def beginCall (s : AICircuitBreaker) (now : ℤ) : Bool × AICircuitBreaker :=
  let s := { s with total_requests := s.total_requests + 1 }
  if s.state = CircuitState.OPEN then
    if should_attempt_reset s now then
      (true, record_state_transition { s with state := .HALF_OPEN } now "HALF_OPEN")
    else
      (false, s)
  else
    (true, s)

/-- Second half of call_with_fallback: record the outcome of the awaited
wrapped function.  On failure the fallback may additionally be awaited, which
does not change the breaker state. -/
def endCall (s : AICircuitBreaker) (now : ℤ) (funcSucceeded : Bool) : AICircuitBreaker :=
  if funcSucceeded then on_success s now else on_failure s now

inductive CallEffect
  | invoked
  | rejected
deriving DecidableEq, Repr

/-- AICircuitBreaker.call_with_fallback for a call that runs to completion
with no interleaved call (the wrapped function resolves to funcSucceeded). -/
def call_with_fallback (s : AICircuitBreaker) (now : ℤ) (funcSucceeded : Bool) :
    CallEffect × AICircuitBreaker :=
  match beginCall s now with
  | (true, s) => (.invoked, endCall s now funcSucceeded)
  | (false, s) => (.rejected, s)

/-- Run a sequence of complete calls, described by (time, outcome of the
wrapped function if it is invoked); returns the call effects and final state. -/
def runCalls (s : AICircuitBreaker) : List (ℤ × Bool) → List CallEffect × AICircuitBreaker
  | [] => ([], s)
  | c :: cs =>
    let r := call_with_fallback s c.1 c.2
    let rest := runCalls r.2 cs
    (r.1 :: rest.1, rest.2)

/-- Concrete breaker trace: threshold 3, timeout 300s, three failed calls. -/
def probeExample : AICircuitBreaker :=
  (runCalls (mkBreaker 3 300) [(0, false), (1, false), (2, false)]).2

/-- The call at time 303 that moves probeExample from OPEN to HALF_OPEN and
proceeds to the dependency (the probe is in flight after beginCall). -/
def probeInFlight : Bool × AICircuitBreaker := beginCall probeExample 303

lemma getLastD_irrel (l : List ℤ) (h : l ≠ []) (d e : ℤ) : l.getLastD d = l.getLastD e := by
  cases l with
  | nil => exact absurd rfl h
  | cons a t => rw [List.getLastD_cons, List.getLastD_cons]

lemma on_failure_below (s : AICircuitBreaker) (t : ℤ)
    (h : s.failure_count + 1 < s.failure_threshold) :
    on_failure s t = { s with failure_count := s.failure_count + 1,
                              total_failures := s.total_failures + 1,
                              last_failure_time := some t } := by
  unfold on_failure
  rw [if_neg]
  show ¬ (s.failure_threshold ≤ s.failure_count + 1)
  omega

lemma on_failure_reaches (s : AICircuitBreaker) (t : ℤ)
    (h : s.failure_threshold ≤ s.failure_count + 1) :
    (on_failure s t).state = .OPEN ∧
    (on_failure s t).next_attempt_time = some (t + s.timeout_seconds) ∧
    (on_failure s t).failure_count = s.failure_count + 1 ∧
    (on_failure s t).timeout_seconds = s.timeout_seconds := by
  unfold on_failure record_state_transition
  rw [if_pos (by simpa using h)]
  split <;> simp_all

lemma call_closed_failure (s : AICircuitBreaker) (t : ℤ) (h : s.state = .CLOSED) :
    call_with_fallback s t false
      = (.invoked, on_failure { s with total_requests := s.total_requests + 1 } t) := by
  unfold call_with_fallback beginCall endCall
  simp [h]

lemma call_closed_success (s : AICircuitBreaker) (t : ℤ) (h : s.state = .CLOSED) :
    call_with_fallback s t true
      = (.invoked, on_success { s with total_requests := s.total_requests + 1 } t) := by
  unfold call_with_fallback beginCall endCall
  simp [h]

lemma runFailures_opens (ts : List ℤ) : ∀ (s : AICircuitBreaker),
    s.state = .CLOSED → ts ≠ [] → s.failure_count + ts.length = s.failure_threshold →
    (∀ e ∈ (runCalls s (ts.map fun t => (t, false))).1, e = CallEffect.invoked) ∧
    (runCalls s (ts.map fun t => (t, false))).2.state = .OPEN ∧
    (runCalls s (ts.map fun t => (t, false))).2.next_attempt_time
      = some (ts.getLastD 0 + s.timeout_seconds) ∧
    (runCalls s (ts.map fun t => (t, false))).2.failure_count = s.failure_threshold := by
  induction ts with
  | nil => intro s _ h2 _; exact absurd rfl h2
  | cons t rest ih =>
    intro s h1 _ h3
    by_cases hrest : rest = []
    · subst hrest
      simp only [List.map, runCalls, call_closed_failure s t h1]
      have hth : ({ s with total_requests := s.total_requests + 1 }
          : AICircuitBreaker).failure_threshold
          ≤ ({ s with total_requests := s.total_requests + 1 }
          : AICircuitBreaker).failure_count + 1 := by
        show s.failure_threshold ≤ s.failure_count + 1
        simp at h3; omega
      obtain ⟨ha, hb, hc, hd⟩ :=
        on_failure_reaches { s with total_requests := s.total_requests + 1 } t hth
      refine ⟨?_, ha, ?_, ?_⟩
      · intro e he; simpa using he
      · rw [hb]; simp at h3 ⊢
      · rw [hc]; show s.failure_count + 1 = s.failure_threshold; simp at h3; omega
    · have hlen : 1 ≤ rest.length := by
        cases rest with
        | nil => exact absurd rfl hrest
        | cons a b => simp
      have hbelow : ({ s with total_requests := s.total_requests + 1 }
          : AICircuitBreaker).failure_count + 1
          < ({ s with total_requests := s.total_requests + 1 }
          : AICircuitBreaker).failure_threshold := by
        show s.failure_count + 1 < s.failure_threshold
        simp at h3; omega
      simp only [List.map, runCalls, call_closed_failure s t h1]
      rw [on_failure_below _ t hbelow]
      set s2 : AICircuitBreaker :=
        { s with total_requests := s.total_requests + 1,
                 failure_count := s.failure_count + 1,
                 total_failures := s.total_failures + 1,
                 last_failure_time := some t } with hs2
      have ih2 := ih s2 (by simp [hs2, h1]) hrest (by simp [hs2]; simp at h3; omega)
      refine ⟨?_, ih2.2.1, ?_, ?_⟩
      · intro e he
        simp only [List.mem_cons] at he
        rcases he with he | he
        · exact he
        · exact ih2.1 e he
      · rw [ih2.2.2.1, List.getLastD_cons, getLastD_irrel rest hrest t 0]
      · rw [ih2.2.2.2]

lemma rejected_while_open (cs : List (ℤ × Bool)) : ∀ (s : AICircuitBreaker) (T : ℤ),
    s.state = .OPEN → s.next_attempt_time = some T → (∀ c ∈ cs, c.1 < T) →
    (∀ e ∈ (runCalls s cs).1, e = CallEffect.rejected) := by
  induction cs with
  | nil => intro s T _ _ _ e he; simp [runCalls] at he
  | cons c rest ih =>
    intro s T h1 h2 h3
    have hlt : c.1 < T := h3 c (by simp)
    have hstep : call_with_fallback s c.1 c.2
        = (.rejected, { s with total_requests := s.total_requests + 1 }) := by
      unfold call_with_fallback beginCall should_attempt_reset
      simp [h1, h2, not_le.mpr hlt]
    intro e he
    simp only [runCalls, hstep, List.mem_cons] at he
    rcases he with he | he
    · exact he
    · exact ih { s with total_requests := s.total_requests + 1 } T
        (by simp [h1]) (by simp [h2]) (fun d hd => h3 d (by simp [hd])) e he

/-- C1: once at least failure_threshold consecutive recorded failures have
occurred, the breaker state is OPEN with the reopen time scheduled
timeout_seconds after the last failure; any recorded failure that reaches the
threshold (re)opens the breaker and (re)arms the timer from that failure; and
every subsequent call made before the reopen time is rejected without the
wrapped function being invoked (the fallback is used or an error is raised). -/
theorem breaker_opens_and_rejects_before_timeout
    (s : AICircuitBreaker) (ts : List ℤ) (cs : List (ℤ × Bool))
    (h1 : s.state = .CLOSED) (h2 : ts ≠ [])
    (h3 : s.failure_count + ts.length = s.failure_threshold)
    (h4 : ∀ c ∈ cs, c.1 < ts.getLastD 0 + s.timeout_seconds) :
    (∀ e ∈ (runCalls s (ts.map fun t => (t, false))).1, e = CallEffect.invoked) ∧
    (runCalls s (ts.map fun t => (t, false))).2.state = .OPEN ∧
    (runCalls s (ts.map fun t => (t, false))).2.next_attempt_time
      = some (ts.getLastD 0 + s.timeout_seconds) ∧
    (∀ s2 now, s2.failure_threshold ≤ s2.failure_count + 1 →
      (on_failure s2 now).state = .OPEN ∧
      (on_failure s2 now).next_attempt_time = some (now + s2.timeout_seconds)) ∧
    (∀ e ∈ (runCalls (runCalls s (ts.map fun t => (t, false))).2 cs).1,
      e = CallEffect.rejected) := by
  obtain ⟨ha, hb, hc, _⟩ := runFailures_opens ts s h1 h2 h3
  refine ⟨ha, hb, hc, ?_, ?_⟩
  · intro s2 now hth
    obtain ⟨x, y, _, _⟩ := on_failure_reaches s2 now hth
    exact ⟨x, y⟩
  · exact rejected_while_open cs _ _ hb hc h4

/-- Witness for C1 at a concrete breaker (threshold 3, timeout 300): three
failures at times 0, 1, 2 and two later calls at times 3 and 301, both before
the reopen time 302. -/
theorem breaker_opens_and_rejects_before_timeout_witness :
    ((mkBreaker 3 300).state = .CLOSED ∧ ([(0 : ℤ), 1, 2] ≠ []) ∧
     (mkBreaker 3 300).failure_count + [(0 : ℤ), 1, 2].length
        = (mkBreaker 3 300).failure_threshold ∧
     (∀ c ∈ [((3 : ℤ), true), ((301 : ℤ), false)],
        c.1 < [(0 : ℤ), 1, 2].getLastD 0 + (mkBreaker 3 300).timeout_seconds)) ∧
    (∀ e ∈ (runCalls (mkBreaker 3 300) ([(0 : ℤ), 1, 2].map fun t => (t, false))).1,
       e = CallEffect.invoked) ∧
    (runCalls (mkBreaker 3 300) ([(0 : ℤ), 1, 2].map fun t => (t, false))).2.state = .OPEN ∧
    (runCalls (mkBreaker 3 300) ([(0 : ℤ), 1, 2].map fun t => (t, false))).2.next_attempt_time
      = some ([(0 : ℤ), 1, 2].getLastD 0 + (mkBreaker 3 300).timeout_seconds) ∧
    (∀ s2 now, s2.failure_threshold ≤ s2.failure_count + 1 →
      (on_failure s2 now).state = .OPEN ∧
      (on_failure s2 now).next_attempt_time = some (now + s2.timeout_seconds)) ∧
    (∀ e ∈ (runCalls (runCalls (mkBreaker 3 300) ([(0 : ℤ), 1, 2].map fun t => (t, false))).2
        [((3 : ℤ), true), ((301 : ℤ), false)]).1, e = CallEffect.rejected) :=
  ⟨⟨by decide, by decide, by decide, by decide⟩,
   breaker_opens_and_rejects_before_timeout (mkBreaker 3 300) [0, 1, 2]
     [(3, true), (301, false)] (by decide) (by decide) (by decide) (by decide)⟩

lemma on_success_failure_count (s : AICircuitBreaker) (t : ℤ) :
    (on_success s t).failure_count = 0 := by
  unfold on_success record_state_transition
  by_cases h : s.state = CircuitState.CLOSED
  · simp [h]
  · simp [h]

lemma closed_success_zero (s : AICircuitBreaker) (t : ℤ) (h : s.state = .CLOSED) :
    (call_with_fallback s t true).2.failure_count = 0 := by
  rw [call_closed_success s t h]
  exact on_success_failure_count _ t

/-- C4 counterexample: with threshold 3 and timeout 300, three failures at
times 0, 1, 2 open the breaker; the call at time 303 moves it to HALF_OPEN and
proceeds as the probe; while that probe is still in flight (before its outcome
is recorded) a second call at time 304 also passes through to the dependency,
because call_with_fallback only rejects calls in the OPEN state.  This refutes
the claim that no second call passes through while the state is HALF_OPEN. -/
theorem half_open_admits_second_call :
    probeInFlight.2.state = CircuitState.HALF_OPEN ∧
    probeInFlight.1 = true ∧
    (beginCall probeInFlight.2 304).1 = true := by decide

/-- C4 (amended): after OPEN to HALF_OPEN the probe call is allowed through,
but the breaker does not limit pass-through while HALF_OPEN: any call that
begins while the state is HALF_OPEN reaches the dependency.  A probe success
moves the state to CLOSED with failure_count 0; a probe failure returns it to
OPEN (the failure count, never reset on entering HALF_OPEN, is still at or
above threshold) with the reopen timer restarted from the failure time. -/
theorem half_open_probe_outcome (s : AICircuitBreaker) (t u : ℤ)
    (h : s.state = .HALF_OPEN) :
    (beginCall s u).1 = true ∧
    (endCall s t true).state = .CLOSED ∧
    (endCall s t true).failure_count = 0 ∧
    (s.failure_threshold ≤ s.failure_count + 1 →
      (endCall s t false).state = .OPEN ∧
      (endCall s t false).next_attempt_time = some (t + s.timeout_seconds)) := by
  refine ⟨?_, ?_, ?_, ?_⟩
  · simp [beginCall, h]
  · simp [endCall, on_success, record_state_transition, h]
  · simp only [endCall, if_pos]
    exact on_success_failure_count s t
  · intro hth
    have hr := on_failure_reaches s t hth
    exact ⟨hr.1, hr.2.1⟩

/-- Witness for C4 (amended) at the concrete HALF_OPEN state probeInFlight.2 . -/
theorem half_open_probe_outcome_witness :
    probeInFlight.2.state = CircuitState.HALF_OPEN ∧
    ((beginCall probeInFlight.2 305).1 = true ∧
     (endCall probeInFlight.2 304 true).state = .CLOSED ∧
     (endCall probeInFlight.2 304 true).failure_count = 0 ∧
     (probeInFlight.2.failure_threshold ≤ probeInFlight.2.failure_count + 1 →
       (endCall probeInFlight.2 304 false).state = .OPEN ∧
       (endCall probeInFlight.2 304 false).next_attempt_time
         = some (304 + probeInFlight.2.timeout_seconds))) :=
  ⟨by decide, half_open_probe_outcome probeInFlight.2 304 305 (by decide)⟩

/- ===================================================================
   Rate limiter: app/core/security.py, class AdvancedRateLimiter.
   client_requests and blocked_ips are insertion-ordered dictionaries,
   modelled as association lists; blocked_ips is a defaultdict(int), so a
   plain read of a missing key inserts that key with value 0.
   The quota check violations > limit * 0.8 compares an integer count with
   the float limit * 0.8; for the three configured limits (100, 500, 50) the
   float products evaluate to exactly 80.0, 400.0 and 40.0, so the comparison
   is exactly the integer test 4 * limit < 5 * violations used here.
   =================================================================== -/

inductive Tier
  | standard
  | premium
  | ai_heavy
deriving DecidableEq, Repr

/-- self.rate_limits[tier]["requests"] . -/
def tier_requests : Tier → ℕ
  | .standard => 100
  | .premium => 500
  | .ai_heavy => 50

/-- self.rate_limits[tier]["window"] . -/
def tier_window : Tier → ℤ
  | .standard => 3600
  | .premium => 3600
  | .ai_heavy => 3600

/-- Dictionary read (first binding wins; bindings are kept unique by aset). -/
def alookup {α : Type} : List (String × α) → String → Option α
  | [], _ => none
  | p :: rest, k => if p.1 = k then some p.2 else alookup rest k

/-- Python membership test: k in d . -/
def acontains {α : Type} (m : List (String × α)) (k : String) : Bool :=
  (alookup m k).isSome

/-- Dictionary write d[k] = v : updates in place, or appends a new binding
(python dicts preserve insertion order). -/
def aset {α : Type} : List (String × α) → String → α → List (String × α)
  | [], k, v => [(k, v)]
  | p :: rest, k, v => if p.1 = k then (k, v) :: rest else p :: aset rest k v

/-- Python del d[k] . -/
def aerase {α : Type} : List (String × α) → String → List (String × α)
  | [], _ => []
  | p :: rest, k => if p.1 = k then rest else p :: aerase rest k

structure AdvancedRateLimiter where
  client_requests : List (String × List ℤ)
  blocked_ips : List (String × ℤ)
deriving DecidableEq, Repr

/-- AdvancedRateLimiter.__init__ . -/
def mkRateLimiter : AdvancedRateLimiter := ⟨[], []⟩

/-- The part of AdvancedRateLimiter.is_allowed after the blocked-IP check:
prune old requests, write the pruned list back, test the quota, set a
temporary hard block on a burst violation, and record the admitted request. -/
def rate_limit_core (s : AdvancedRateLimiter) (client_id : String) (tier : Tier)
    (now : ℤ) : Bool × AdvancedRateLimiter :=
  let window := tier_window tier
  let limit := tier_requests tier
  let reqs0 := (alookup s.client_requests client_id).getD []
  let reqs := reqs0.filter (fun rt => decide (now - rt < window))
  let s := { s with client_requests := aset s.client_requests client_id reqs }
  if limit ≤ reqs.length then
    let violations := (reqs.filter (fun rt => decide (now - rt < 60))).length
    let s :=
      if 4 * limit < 5 * violations then
        { s with blocked_ips := aset s.blocked_ips client_id now }
      else s
    (false, s)
  else
    (true, { s with client_requests := aset s.client_requests client_id (reqs ++ [now]) })

/-- AdvancedRateLimiter.is_allowed.  Reading self.blocked_ips[client_id]
materialises a 0 entry when the key is absent (defaultdict); a positive
stored value is an active or expired block. -/
def is_allowed (s : AdvancedRateLimiter) (client_id : String) (tier : Tier)
    (now : ℤ) : Bool × AdvancedRateLimiter :=
  let b := (alookup s.blocked_ips client_id).getD 0
  let s := { s with blocked_ips :=
      (if acontains s.blocked_ips client_id then s.blocked_ips
       else aset s.blocked_ips client_id 0) }
  if 0 < b then
    if now - b < 3600 then (false, s)
    else rate_limit_core { s with blocked_ips := aerase s.blocked_ips client_id }
      client_id tier now
  else
    rate_limit_core s client_id tier now

/-- AdvancedRateLimiter.get_remaining.  max(0, limit - len) is natural-number
truncated subtraction.  Despite being a read, it writes the pruned list back. -/
def get_remaining (s : AdvancedRateLimiter) (client_id : String) (tier : Tier)
    (now : ℤ) : ℕ × AdvancedRateLimiter :=
  let window := tier_window tier
  let limit := tier_requests tier
  match alookup s.client_requests client_id with
  | none => (limit, s)
  | some reqs0 =>
    let reqs := reqs0.filter (fun rt => decide (now - rt < window))
    (limit - reqs.length, { s with client_requests := aset s.client_requests client_id reqs })

/-- Run a sequence of is_allowed checks for one caller and tier. -/
def run_is_allowed (s : AdvancedRateLimiter) (client_id : String) (tier : Tier) :
    List ℤ → List Bool × AdvancedRateLimiter
  | [] => ([], s)
  | t :: ts =>
    let r := is_allowed s client_id tier t
    let rest := run_is_allowed r.2 client_id tier ts
    (r.1 :: rest.1, rest.2)

lemma tier_requests_pos (tier : Tier) : 0 < tier_requests tier := by
  cases tier <;> decide

lemma alookup_aset {α : Type} (m : List (String × α)) (k : String) (v : α) :
    alookup (aset m k v) k = some v := by
  induction m with
  | nil => simp [aset, alookup]
  | cons p rest ih =>
    by_cases h : p.1 = k
    · simp [aset, alookup, h]
    · simp [aset, alookup, h, ih]

lemma acontains_aset {α : Type} (m : List (String × α)) (k : String) (v : α) :
    acontains (aset m k v) k = true := by
  simp [acontains, alookup_aset]

lemma is_allowed_single_state (c : String) (tier : Tier) (done : List ℤ) (t : ℤ)
    (hfilter : done.filter (fun rt => decide (t - rt < tier_window tier)) = done)
    (hlt : done.length < tier_requests tier) :
    is_allowed ⟨[(c, done)], [(c, 0)]⟩ c tier t
      = (true, ⟨[(c, done ++ [t])], [(c, 0)]⟩) := by
  unfold is_allowed rate_limit_core
  simp [alookup, acontains, aset, hfilter, Nat.not_le.mpr hlt]

lemma run_admitted_aux (c : String) (tier : Tier) :
    ∀ (ts done : List ℤ),
    (∀ t ∈ ts, ∀ d ∈ done ++ ts, t - d < tier_window tier) →
    done.length + ts.length ≤ tier_requests tier →
    run_is_allowed ⟨[(c, done)], [(c, 0)]⟩ c tier ts
      = (ts.map (fun _ => true), ⟨[(c, done ++ ts)], [(c, 0)]⟩) := by
  intro ts
  induction ts with
  | nil => intro done _ _; simp [run_is_allowed]
  | cons t ts ih =>
    intro done hspan hcount
    have hfilter : done.filter (fun rt => decide (t - rt < tier_window tier)) = done := by
      apply List.filter_eq_self.mpr
      intro d hd
      simp only [decide_eq_true_eq]
      exact hspan t (by simp) d (by simp [hd])
    have hlen : done.length < tier_requests tier := by
      simp at hcount; omega
    simp only [run_is_allowed, is_allowed_single_state c tier done t hfilter hlen]
    rw [ih (done ++ [t]) ?hs ?hc]
    · simp
    case hs =>
      intro u hu d hd
      apply hspan u (by simp [hu])
      simp only [List.mem_append, List.mem_cons] at hd ⊢
      tauto
    case hc => simp at hcount ⊢; omega

lemma run_admitted (c : String) (tier : Tier) (ts : List ℤ)
    (hne : ts ≠ [])
    (hspan : ∀ t ∈ ts, ∀ d ∈ ts, t - d < tier_window tier)
    (hcount : ts.length ≤ tier_requests tier) :
    run_is_allowed mkRateLimiter c tier ts
      = (ts.map (fun _ => true), ⟨[(c, ts)], [(c, 0)]⟩) := by
  cases ts with
  | nil => exact absurd rfl hne
  | cons t ts =>
    have hstep : is_allowed mkRateLimiter c tier t = (true, ⟨[(c, [t])], [(c, 0)]⟩) := by
      unfold is_allowed rate_limit_core mkRateLimiter
      simp [alookup, acontains, aset, Nat.not_le.mpr (tier_requests_pos tier)]
    simp only [run_is_allowed, hstep]
    rw [run_admitted_aux c tier ts [t] ?hs ?hc]
    · simp
    case hs =>
      intro u hu d hd
      apply hspan u (by simp [hu]) d
      simp only [List.mem_append, List.mem_cons] at hd ⊢
      tauto
    case hc => simp at hcount ⊢; omega

lemma is_allowed_reject_step (c : String) (tier : Tier) (ts : List ℤ) (tR : ℤ)
    (hfilter : ts.filter (fun rt => decide (tR - rt < tier_window tier)) = ts)
    (hfull : tier_requests tier ≤ ts.length) :
    is_allowed ⟨[(c, ts)], [(c, 0)]⟩ c tier tR
      = (false, ⟨[(c, ts)],
          (if 4 * tier_requests tier
              < 5 * (ts.filter (fun rt => decide (tR - rt < 60))).length
           then [(c, tR)] else [(c, 0)])⟩) := by
  unfold is_allowed rate_limit_core
  by_cases hv : 4 * tier_requests tier
      < 5 * (ts.filter (fun rt => decide (tR - rt < 60))).length
  · simp [alookup, acontains, aset, hfilter, hfull, hv]
  · simp [alookup, acontains, aset, hfilter, hfull, hv]

lemma core_all_pruned (c : String) (tier : Tier) (reqs : List ℤ)
    (bl : List (String × ℤ)) (t2 : ℤ)
    (h : ∀ t ∈ reqs, tier_window tier ≤ t2 - t) :
    (rate_limit_core ⟨[(c, reqs)], bl⟩ c tier t2).1 = true := by
  have hf : reqs.filter (fun rt => decide (t2 - rt < tier_window tier)) = [] := by
    rw [List.filter_eq_nil_iff]
    intro a ha
    simp only [decide_eq_true_eq, not_lt]
    exact h a ha
  unfold rate_limit_core
  simp [alookup, hf, Nat.not_le.mpr (tier_requests_pos tier)]

lemma is_allowed_resumes (c : String) (tier : Tier) (ts : List ℤ) (bl t2 : ℤ)
    (hwin : ∀ t ∈ ts, tier_window tier ≤ t2 - t)
    (hblock : 0 < bl → 3600 ≤ t2 - bl) :
    (is_allowed ⟨[(c, ts)], [(c, bl)]⟩ c tier t2).1 = true := by
  unfold is_allowed
  by_cases hb : 0 < bl
  · have hexp : ¬ (t2 - bl < 3600) := not_lt.mpr (hblock hb)
    simp only [alookup, acontains, aset, aerase]
    simp [hb, hexp]
    exact core_all_pruned c tier ts [] t2 hwin
  · simp only [alookup, acontains, aset, aerase]
    simp [hb]
    exact core_all_pruned c tier ts [(c, bl)] t2 hwin

/-- C5 counterexample: under tier ai_heavy (quota 50, window 3600s), calls at
times 0..49 are all admitted and the call at time 50 is rejected; but that
rejection also installs a one-hour hard block (all 50 admitted timestamps lie
within the last 60 seconds, exceeding 80 percent of the quota), so at time
3649 — although the 3600s window has fully elapsed since every recorded
request — is_allowed still returns false.  This refutes both that the
(N+1)th rejected call records nothing and that admission resumes as soon as
the window has fully elapsed. -/
theorem rate_limiter_block_outlives_window :
    (∀ b ∈ (run_is_allowed mkRateLimiter "client" Tier.ai_heavy
        ((List.range 50).map (fun i => (i : ℤ)))).1, b = true) ∧
    (is_allowed (run_is_allowed mkRateLimiter "client" Tier.ai_heavy
        ((List.range 50).map (fun i => (i : ℤ)))).2 "client" Tier.ai_heavy 50).1 = false ∧
    (∀ t ∈ (List.range 50).map (fun i => (i : ℤ)),
        tier_window Tier.ai_heavy ≤ (3649 : ℤ) - t) ∧
    (is_allowed (is_allowed (run_is_allowed mkRateLimiter "client" Tier.ai_heavy
        ((List.range 50).map (fun i => (i : ℤ)))).2 "client" Tier.ai_heavy 50).2
      "client" Tier.ai_heavy 3649).1 = false := by decide

/-- C5 (amended): for a fresh caller, quota-many calls within the window are
all admitted; the next call inside the window is rejected, records no
timestamp (the per-caller request list is unchanged), but installs a one-hour
block exactly when more than 80 percent of the quota lies within the last 60
seconds; admission resumes once the window has fully elapsed for every
recorded request and any such block has expired. -/
theorem rate_limiter_quota_window_and_block (c : String) (tier : Tier)
    (ts : List ℤ) (tR : ℤ)
    (hne : ts ≠ [])
    (hlen : ts.length = tier_requests tier)
    (hspan : ∀ t ∈ ts, ∀ d ∈ ts, t - d < tier_window tier)
    (hwin : ∀ t ∈ ts, tR - t < tier_window tier) :
    (∀ b ∈ (run_is_allowed mkRateLimiter c tier ts).1, b = true) ∧
    (is_allowed (run_is_allowed mkRateLimiter c tier ts).2 c tier tR).1 = false ∧
    (is_allowed (run_is_allowed mkRateLimiter c tier ts).2 c tier tR).2.client_requests
       = [(c, ts)] ∧
    (is_allowed (run_is_allowed mkRateLimiter c tier ts).2 c tier tR).2.blocked_ips
       = (if 4 * tier_requests tier
             < 5 * (ts.filter (fun rt => decide (tR - rt < 60))).length
          then [(c, tR)] else [(c, 0)]) ∧
    (∀ t2 : ℤ, (∀ t ∈ ts, tier_window tier ≤ t2 - t) →
       ((4 * tier_requests tier
           < 5 * (ts.filter (fun rt => decide (tR - rt < 60))).length) → 3600 ≤ t2 - tR) →
       (is_allowed (is_allowed (run_is_allowed mkRateLimiter c tier ts).2 c tier tR).2
          c tier t2).1 = true) := by
  have hrun := run_admitted c tier ts hne hspan (le_of_eq hlen)
  have hfilter : ts.filter (fun rt => decide (tR - rt < tier_window tier)) = ts := by
    apply List.filter_eq_self.mpr
    intro d hd
    simp only [decide_eq_true_eq]
    exact hwin d hd
  have hrej := is_allowed_reject_step c tier ts tR hfilter (le_of_eq hlen.symm)
  refine ⟨?_, ?_, ?_, ?_, ?_⟩
  · rw [hrun]; simp
  · simp only [hrun, hrej]
  · simp only [hrun, hrej]
  · simp only [hrun, hrej]
  · intro t2 hw2 hb2
    simp only [hrun, hrej]
    by_cases hv : 4 * tier_requests tier
        < 5 * (ts.filter (fun rt => decide (tR - rt < 60))).length
    · simp only [if_pos hv]
      exact is_allowed_resumes c tier ts tR t2 hw2 (fun _ => hb2 hv)
    · simp only [if_neg hv]
      exact is_allowed_resumes c tier ts 0 t2 hw2 (fun h => absurd h (lt_irrefl 0))

/-- Witness for C5 (amended): tier ai_heavy, admitted calls at times 0..49,
rejected call at time 50. -/
theorem rate_limiter_quota_window_and_block_witness :
    (((List.range 50).map (fun i => (i : ℤ)) ≠ []) ∧
     ((List.range 50).map (fun i => (i : ℤ))).length = tier_requests Tier.ai_heavy ∧
     (∀ t ∈ (List.range 50).map (fun i => (i : ℤ)),
        ∀ d ∈ (List.range 50).map (fun i => (i : ℤ)),
          t - d < tier_window Tier.ai_heavy) ∧
     (∀ t ∈ (List.range 50).map (fun i => (i : ℤ)),
        (50 : ℤ) - t < tier_window Tier.ai_heavy)) ∧
    ((∀ b ∈ (run_is_allowed mkRateLimiter "c" Tier.ai_heavy
        ((List.range 50).map (fun i => (i : ℤ)))).1, b = true) ∧
     (is_allowed (run_is_allowed mkRateLimiter "c" Tier.ai_heavy
        ((List.range 50).map (fun i => (i : ℤ)))).2 "c" Tier.ai_heavy 50).1 = false ∧
     (is_allowed (run_is_allowed mkRateLimiter "c" Tier.ai_heavy
        ((List.range 50).map (fun i => (i : ℤ)))).2 "c" Tier.ai_heavy 50).2.client_requests
        = [("c", (List.range 50).map (fun i => (i : ℤ)))] ∧
     (is_allowed (run_is_allowed mkRateLimiter "c" Tier.ai_heavy
        ((List.range 50).map (fun i => (i : ℤ)))).2 "c" Tier.ai_heavy 50).2.blocked_ips
        = (if 4 * tier_requests Tier.ai_heavy
              < 5 * (((List.range 50).map (fun i => (i : ℤ))).filter
                  (fun rt => decide ((50 : ℤ) - rt < 60))).length
           then [("c", (50 : ℤ))] else [("c", 0)]) ∧
     (∀ t2 : ℤ,
        (∀ t ∈ (List.range 50).map (fun i => (i : ℤ)),
            tier_window Tier.ai_heavy ≤ t2 - t) →
        ((4 * tier_requests Tier.ai_heavy
            < 5 * (((List.range 50).map (fun i => (i : ℤ))).filter
                (fun rt => decide ((50 : ℤ) - rt < 60))).length) → 3600 ≤ t2 - 50) →
        (is_allowed (is_allowed (run_is_allowed mkRateLimiter "c" Tier.ai_heavy
            ((List.range 50).map (fun i => (i : ℤ)))).2 "c" Tier.ai_heavy 50).2
          "c" Tier.ai_heavy t2).1 = true)) :=
  ⟨⟨by decide, by decide, by decide, by decide⟩,
   rate_limiter_quota_window_and_block "c" Tier.ai_heavy
     ((List.range 50).map (fun i => (i : ℤ))) 50
     (by decide) (by decide) (by decide) (by decide)⟩

lemma core_sets_client_requests (s : AdvancedRateLimiter) (c : String) (tier : Tier)
    (now : ℤ) :
    acontains (rate_limit_core s c tier now).2.client_requests c = true := by
  unfold rate_limit_core
  by_cases h1 : tier_requests tier
      ≤ (((alookup s.client_requests c).getD []).filter
          (fun rt => decide (now - rt < tier_window tier))).length
  · simp [h1]
    split <;> simp [acontains_aset]
  · simp [h1, acontains_aset]

lemma is_allowed_leaves_footprint (s : AdvancedRateLimiter) (c : String) (tier : Tier)
    (now : ℤ) :
    acontains (is_allowed s c tier now).2.blocked_ips c = true ∨
    acontains (is_allowed s c tier now).2.client_requests c = true := by
  unfold is_allowed
  by_cases hb : 0 < (alookup s.blocked_ips c).getD 0
  · by_cases hx : now - (alookup s.blocked_ips c).getD 0 < 3600
    · left
      simp [hb, hx]
      by_cases hc : acontains s.blocked_ips c
      · simp [hc]
      · simp [hc, acontains_aset]
    · right
      simp [hb, hx]
      exact core_sets_client_requests _ c tier now
  · right
    simp [hb]
    exact core_sets_client_requests _ c tier now

/-- C9 counterexample: the caller alice has one recorded timestamp at time 0;
at time 4000 that request is outside the standard 3600s window and alice has
no block entry at all, yet after a get_remaining check the limiter still
holds a per-caller entry for alice in client_requests (the pruned, now empty,
list is written back under her key; the key is never removed).  This refutes
the claim that such a caller retains no persisted footprint. -/
theorem stale_caller_entry_persists :
    (([(0 : ℤ)].filter (fun rt => decide ((4000 : ℤ) - rt < tier_window Tier.standard))) = []
       ∧ alookup (⟨[("alice", [(0 : ℤ)])], []⟩ : AdvancedRateLimiter).blocked_ips "alice"
           = none) ∧
    acontains (get_remaining (⟨[("alice", [(0 : ℤ)])], []⟩ : AdvancedRateLimiter)
        "alice" Tier.standard 4000).2.client_requests "alice" = true := by decide

/-- C9 (amended): stale timestamps are pruned from the timestamp list of a caller on each
check, but the per-caller keys persist: get_remaining writes the pruned
(possibly empty) list back under the same caller key, so a caller who has ever
been recorded keeps a client_requests entry; and any caller checked through
is_allowed retains a footprint in the limiter maps (a blocked_ips entry —
created at 0 by the defaultdict read if absent — or a client_requests entry). -/
theorem rate_limiter_prunes_but_keeps_entries (s : AdvancedRateLimiter) (c : String)
    (tier : Tier) (now : ℤ)
    (h : acontains s.client_requests c = true) :
    acontains (get_remaining s c tier now).2.client_requests c = true ∧
    alookup (get_remaining s c tier now).2.client_requests c
      = some (((alookup s.client_requests c).getD []).filter
          (fun rt => decide (now - rt < tier_window tier))) ∧
    (acontains (is_allowed s c tier now).2.blocked_ips c = true ∨
     acontains (is_allowed s c tier now).2.client_requests c = true) := by
  obtain ⟨reqs0, hreq⟩ : ∃ r, alookup s.client_requests c = some r := by
    cases hh : alookup s.client_requests c
    · simp [acontains, hh] at h
    · exact ⟨_, rfl⟩
  refine ⟨?_, ?_, is_allowed_leaves_footprint s c tier now⟩
  · unfold get_remaining
    rw [hreq]
    simp [acontains, alookup_aset]
  · unfold get_remaining
    rw [hreq]
    simp [alookup_aset, hreq]

/-- Witness for C9 (amended) at the concrete stale-caller state. -/
theorem rate_limiter_prunes_but_keeps_entries_witness :
    (acontains (⟨[("alice", [(0 : ℤ)])], []⟩ : AdvancedRateLimiter).client_requests
        "alice" = true) ∧
    (acontains (get_remaining (⟨[("alice", [(0 : ℤ)])], []⟩ : AdvancedRateLimiter)
        "alice" Tier.standard 4000).2.client_requests "alice" = true ∧
     alookup (get_remaining (⟨[("alice", [(0 : ℤ)])], []⟩ : AdvancedRateLimiter)
        "alice" Tier.standard 4000).2.client_requests "alice"
       = some (((alookup (⟨[("alice", [(0 : ℤ)])], []⟩
            : AdvancedRateLimiter).client_requests "alice").getD []).filter
           (fun rt => decide ((4000 : ℤ) - rt < tier_window Tier.standard))) ∧
     (acontains (is_allowed (⟨[("alice", [(0 : ℤ)])], []⟩ : AdvancedRateLimiter)
          "alice" Tier.standard 4000).2.blocked_ips "alice" = true ∨
      acontains (is_allowed (⟨[("alice", [(0 : ℤ)])], []⟩ : AdvancedRateLimiter)
          "alice" Tier.standard 4000).2.client_requests "alice" = true)) :=
  ⟨by decide, rate_limiter_prunes_but_keeps_entries ⟨[("alice", [0])], []⟩
     "alice" Tier.standard 4000 (by decide)⟩

/- ===================================================================
   Agents and coordinator: app/ai_agents/base_agent.py,
   app/ai_agents/coordinator_agent.py and the five capability agents.
   BaseAgent.format_response builds the uniform envelope dictionary; its
   timestamp field (wall-clock metadata) is omitted here.  Calls to
   sub-agents are modelled by their result envelopes, passed in as
   parameters, and domain payloads are opaque strings.
   =================================================================== -/

/-- BaseAgent.format_response output with payload type alpha. -/
structure AgentResponse (α : Type) where
  success : Bool
  data : Option α
  message : String
  agent : String
deriving DecidableEq, Repr

/-- BaseAgent.format_response . -/
def format_response {α : Type} (name : String) (success : Bool) (data : Option α)
    (message : String) : AgentResponse α :=
  ⟨success, data, message, name⟩

/-- Envelope produced by a sub-agent call; its domain payload is opaque. -/
abbrev Env := AgentResponse String

/-- The workflow_result dictionary built by
CoordinatorAgent.execute_onboarding_workflow : the ordered steps_completed
list and the step-name to envelope entries of results.  The derived
recommendations and next_actions fields are computed from payload contents
only and are omitted. -/
structure OnboardingWorkflowResult where
  steps_completed : List String
  results : List (String × Env)
deriving DecidableEq, Repr

/-- Abbreviated str(e) renderings of the exceptions the workflow bodies can
raise; the exact Python texts (which carry quote characters) are not
reproduced — only which handler produced them matters to the claims. -/
def typeErrorText : String := "NoneType object is not a mapping"

def attributeErrorText : String := "NoneType object has no attribute get"

def missingMethodErrorText : String :=
  "CoordinatorAgent object has no attribute _generate_integrated_insights"

/-- CoordinatorAgent.execute_onboarding_workflow, parameterised by whether
intern_data carries a resume_file and by the envelope each sub-agent call
returns.  An envelope data of none models a Python None payload; some _
models a dict payload (whose field reads never raise).  Only a
profile-creation failure returns early with the partial workflow_result.
Afterwards: intern_data.update(envelope data) runs for a successful resume
or skill envelope and raises TypeError when that data is None; once all
five steps are recorded, _generate_onboarding_recommendations reads
results skill_assessment data and learning_path data with .get, which
raises AttributeError when either payload is None.  The surrounding
try/except converts any of these into
format_response(False, None, "Onboarding workflow failed: " + str(e)) —
discarding every recorded step envelope. -/
def execute_onboarding_workflow (hasResume : Bool)
    (profile resume skill learning task : Env) :
    AgentResponse OnboardingWorkflowResult :=
  let steps1 := ["profile_creation"]
  let results1 := [("profile", profile)]
  if profile.success = false then
    format_response "coordinator_agent" false (some ⟨steps1, results1⟩)
      "Profile creation failed"
  else
    let steps2 := if hasResume then steps1 ++ ["resume_analysis"] else steps1
    let results2 := if hasResume then results1 ++ [("resume_analysis", resume)] else results1
    if hasResume ∧ resume.success = true ∧ resume.data = none then
      format_response "coordinator_agent" false none
        ("Onboarding workflow failed: " ++ typeErrorText)
    else
      let steps3 := steps2 ++ ["skill_assessment"]
      let results3 := results2 ++ [("skill_assessment", skill)]
      if skill.success = true ∧ skill.data = none then
        format_response "coordinator_agent" false none
          ("Onboarding workflow failed: " ++ typeErrorText)
      else
        let steps4 := steps3 ++ ["learning_path"]
        let results4 := results3 ++ [("learning_path", learning)]
        let steps5 := steps4 ++ ["task_allocation"]
        let results5 := results4 ++ [("task_allocation", task)]
        if skill.data = none then
          format_response "coordinator_agent" false none
            ("Onboarding workflow failed: " ++ attributeErrorText)
        else if learning.data = none then
          format_response "coordinator_agent" false none
            ("Onboarding workflow failed: " ++ attributeErrorText)
        else
          format_response "coordinator_agent" true (some ⟨steps5, results5⟩)
            ("Onboarding workflow completed successfully with "
              ++ toString steps5.length ++ " steps")

def envProfileOk : Env := ⟨true, some "profile payload", "", "onboarding_agent"⟩
def envResumeOk : Env := ⟨true, some "resume payload", "", "assessment_agent"⟩
def envSkillFail : Env := ⟨false, none, "Skill assessment failed", "assessment_agent"⟩
def envLearnOk : Env := ⟨true, some "learning payload", "", "customization_agent"⟩
def envTaskOk : Env := ⟨true, some "task payload", "", "task_manager_agent"⟩

/-- Onboarding run in which step 3 (skill assessment) fails; a failing
envelope carries data None (format_response(False, None, ...)). -/
def skillFailEx : AgentResponse OnboardingWorkflowResult :=
  execute_onboarding_workflow true envProfileOk envResumeOk envSkillFail envLearnOk envTaskOk

/-- C2 counterexample: with a failing step 3 (skill assessment, whose
failure envelope has data None), the workflow does not return the partial
result the claim describes.  Steps 4 and 5 still execute, and then
_generate_onboarding_recommendations calls .get on the None data payload of
the failed step; the raised AttributeError is caught and converted into a
failure envelope with data None.  So the response carries no step envelope
at all — in particular not the completed envelopes of steps 1 and 2 and not
the step-3 failure envelope the claim requires. -/
theorem skill_failure_returns_no_step_envelopes :
    skillFailEx.success = false ∧
    skillFailEx.data = none ∧
    skillFailEx.message = "Onboarding workflow failed: " ++ attributeErrorText := by decide

/-- C2 (amended): a profile-creation (step 1) failure halts the workflow
and returns the claimed partial result: success false with exactly the
step-1 envelope.  A skill-assessment (step 3) failure does not halt — steps
4 and 5 still execute — but the caller does not receive the accumulated
envelopes either: generating recommendations dereferences the None data of
the failed step, and the caught AttributeError yields success false with
data None, so no step envelope at all is returned.  That the later steps
are not halted is visible whenever the crash does not fire: with every
needed payload present, the same failing step-3 envelope flows into a
success response carrying all five step envelopes. -/
theorem onboarding_partial_failure_behaviour (hasResume : Bool)
    (profile resume skill learning task : Env)
    (hp : profile.success = true)
    (hres : hasResume = true → resume.success = true → resume.data ≠ none)
    (hsf : skill.success = false) (hsd : skill.data = none) :
    (execute_onboarding_workflow hasResume profile resume skill learning task).success
      = false ∧
    (execute_onboarding_workflow hasResume profile resume skill learning task).data
      = none ∧
    (execute_onboarding_workflow hasResume profile resume skill learning task).message
      = "Onboarding workflow failed: " ++ attributeErrorText ∧
    (∀ p2 r2 s2 l2 t2 : Env, p2.success = false →
      (execute_onboarding_workflow hasResume p2 r2 s2 l2 t2).success = false ∧
      (execute_onboarding_workflow hasResume p2 r2 s2 l2 t2).data
        = some ⟨["profile_creation"], [("profile", p2)]⟩) ∧
    (∀ (s2 l2 t2 : Env) (ds dl : String), s2.success = false → s2.data = some ds →
      l2.data = some dl →
      (execute_onboarding_workflow hasResume profile resume s2 l2 t2).success = true ∧
      (execute_onboarding_workflow hasResume profile resume s2 l2 t2).data.map
          (fun w => alookup w.results "skill_assessment") = some (some s2) ∧
      (execute_onboarding_workflow hasResume profile resume s2 l2 t2).data.map
          (fun w => alookup w.results "learning_path") = some (some l2) ∧
      (execute_onboarding_workflow hasResume profile resume s2 l2 t2).data.map
          (fun w => alookup w.results "task_allocation") = some (some t2) ∧
      (execute_onboarding_workflow hasResume profile resume s2 l2 t2).data.map
          (fun w => w.steps_completed)
        = some (if hasResume
            then ["profile_creation", "resume_analysis", "skill_assessment",
                  "learning_path", "task_allocation"]
            else ["profile_creation", "skill_assessment", "learning_path",
                  "task_allocation"])) := by
  have hmain : execute_onboarding_workflow hasResume profile resume skill learning task
      = format_response "coordinator_agent" false none
          ("Onboarding workflow failed: " ++ attributeErrorText) := by
    cases hasResume with
    | false => simp [execute_onboarding_workflow, hp, hsf, hsd]
    | true =>
      have hr : ¬ (resume.success = true ∧ resume.data = none) :=
        fun hc => hres rfl hc.1 hc.2
      simp [execute_onboarding_workflow, hp, hsf, hsd, hr]
  refine ⟨by rw [hmain]; rfl, by rw [hmain]; rfl, by rw [hmain]; rfl, ?_, ?_⟩
  · intro p2 r2 s2 l2 t2 hfail
    constructor
    · simp [execute_onboarding_workflow, format_response, hfail]
    · simp [execute_onboarding_workflow, format_response, hfail]
  · intro s2 l2 t2 ds dl hs2f hs2d hl2d
    refine ⟨?_, ?_, ?_, ?_, ?_⟩ <;>
      (cases hasResume with
       | false =>
         simp [execute_onboarding_workflow, format_response, hp, hs2f, hs2d, hl2d,
           alookup]
       | true =>
         have hr : ¬ (resume.success = true ∧ resume.data = none) :=
           fun hc => hres rfl hc.1 hc.2
         simp [execute_onboarding_workflow, format_response, hp, hs2f, hs2d, hl2d,
           hr, alookup])

/-- Witness for C2 (amended): resume present with a dict payload, every step
succeeding except the skill assessment, whose failure envelope has data
None. -/
theorem onboarding_partial_failure_behaviour_witness :
    (envProfileOk.success = true ∧
     ((true : Bool) = true → envResumeOk.success = true → envResumeOk.data ≠ none) ∧
     envSkillFail.success = false ∧ envSkillFail.data = none) ∧
    (skillFailEx.success = false ∧
     skillFailEx.data = none ∧
     skillFailEx.message = "Onboarding workflow failed: " ++ attributeErrorText ∧
     (∀ p2 r2 s2 l2 t2 : Env, p2.success = false →
       (execute_onboarding_workflow true p2 r2 s2 l2 t2).success = false ∧
       (execute_onboarding_workflow true p2 r2 s2 l2 t2).data
         = some ⟨["profile_creation"], [("profile", p2)]⟩) ∧
     (∀ (s2 l2 t2 : Env) (ds dl : String), s2.success = false → s2.data = some ds →
       l2.data = some dl →
       (execute_onboarding_workflow true envProfileOk envResumeOk s2 l2 t2).success
         = true ∧
       (execute_onboarding_workflow true envProfileOk envResumeOk s2 l2 t2).data.map
           (fun w => alookup w.results "skill_assessment") = some (some s2) ∧
       (execute_onboarding_workflow true envProfileOk envResumeOk s2 l2 t2).data.map
           (fun w => alookup w.results "learning_path") = some (some l2) ∧
       (execute_onboarding_workflow true envProfileOk envResumeOk s2 l2 t2).data.map
           (fun w => alookup w.results "task_allocation") = some (some t2) ∧
       (execute_onboarding_workflow true envProfileOk envResumeOk s2 l2 t2).data.map
           (fun w => w.steps_completed)
         = some (if (true : Bool)
             then ["profile_creation", "resume_analysis", "skill_assessment",
                   "learning_path", "task_allocation"]
             else ["profile_creation", "skill_assessment", "learning_path",
                   "task_allocation"]))) :=
  ⟨⟨by decide, by decide, by decide, by decide⟩,
   onboarding_partial_failure_behaviour true envProfileOk envResumeOk envSkillFail
     envLearnOk envTaskOk (by decide) (by decide) (by decide) (by decide)⟩

/-- The comprehensive_result dictionary assembled inside
CoordinatorAgent.execute_comprehensive_evaluation : its agent_evaluations
map (the scalar metadata fields are omitted).  It never reaches the caller
(see execute_comprehensive_evaluation). -/
structure ComprehensiveResult where
  agent_evaluations : List (String × Env)
deriving DecidableEq, Repr

/-- The post-gather aggregation loop of execute_comprehensive_evaluation.
The three agent calls run under asyncio.gather(..., return_exceptions=True),
so each outcome is either an envelope (.ok) or a raised exception captured
by gather (.error, carrying its message).  Non-exception outcomes are kept
in task order under their agent names; an exception outcome is logged and
dropped. -/
def gather_agent_evaluations (outcomes : List (String × Except String Env)) :
    List (String × Env) :=
  outcomes.foldl
    (fun acc p =>
      match p.2 with
      | .ok v => acc ++ [(p.1, v)]
      | .error _ => acc) []

/-- CoordinatorAgent.execute_comprehensive_evaluation .  After aggregating
the three concurrent outcomes it calls self._generate_integrated_insights
and self._create_comprehensive_action_plan — methods defined nowhere in the
repository — so the attribute lookup raises AttributeError inside the try
block and the except handler always returns a failure envelope with data
None: the assembled agent_evaluations never reach the caller. -/
def execute_comprehensive_evaluation
    (rAssessment rTaskManager rCustomization : Except String Env) :
    AgentResponse ComprehensiveResult :=
  let _agent_evaluations := gather_agent_evaluations
    [("assessment", rAssessment), ("task_manager", rTaskManager),
     ("customization", rCustomization)]
  format_response "coordinator_agent" false none
    ("Comprehensive evaluation failed: " ++ missingMethodErrorText)

/-- C6 counterexample: in a fan-out of 3 agent calls where exactly one (the
assessment call) throws, the workflow result contains neither 2 successful
envelopes nor a failure envelope for the throwing member: the response has
success false and data None — no member appears at all, because the
function always crashes on its calls to two undefined methods before
returning.  And even the internal aggregation that precedes the crash drops
the throwing member instead of recording a failure envelope for it. -/
theorem fanout_exception_member_dropped :
    (execute_comprehensive_evaluation (.error "boom") (.ok envResumeOk)
        (.ok envLearnOk)).success = false ∧
    (execute_comprehensive_evaluation (.error "boom") (.ok envResumeOk)
        (.ok envLearnOk)).data = none ∧
    (gather_agent_evaluations [("assessment", .error "boom"),
        ("task_manager", .ok envResumeOk),
        ("customization", .ok envLearnOk)]).length = 2 ∧
    acontains (gather_agent_evaluations [("assessment", .error "boom"),
        ("task_manager", .ok envResumeOk), ("customization", .ok envLearnOk)])
      "assessment" = false := by decide

/-- C6 (amended): execute_comprehensive_evaluation never returns any
fan-out member to the caller: whatever the three outcomes, it returns a
failure envelope with data None, because it calls the undefined methods
_generate_integrated_insights and _create_comprehensive_action_plan and the
raised AttributeError is swallowed by its handler.  In the aggregation that
precedes the crash, the thrown exception of one member is isolated — the
envelopes of the other members are kept unchanged under their own agent
names — but the throwing member is dropped without a failure envelope. -/
theorem fanout_failure_isolated_but_dropped (e : String) (env1 env2 : Env)
    (rA rT rC : Except String Env) :
    execute_comprehensive_evaluation rA rT rC
      = format_response "coordinator_agent" false none
          ("Comprehensive evaluation failed: " ++ missingMethodErrorText) ∧
    gather_agent_evaluations
        [("assessment", .error e), ("task_manager", .ok env1),
         ("customization", .ok env2)]
      = [("task_manager", env1), ("customization", env2)] ∧
    gather_agent_evaluations
        [("assessment", .ok env1), ("task_manager", .error e),
         ("customization", .ok env2)]
      = [("assessment", env1), ("customization", env2)] ∧
    gather_agent_evaluations
        [("assessment", .ok env1), ("task_manager", .ok env2),
         ("customization", .error e)]
      = [("assessment", env1), ("task_manager", env2)] :=
  ⟨rfl, rfl, rfl, rfl⟩

/-- CoordinatorAgent.process : dispatch on data.get("workflow").  Each
recognized workflow delegates to its executor, abstracted here as run; an
unrecognized or missing value returns the failure envelope (the source
returns it, it does not raise). -/
def CoordinatorAgent.process {α : Type} (workflow : Option String)
    (run : String → AgentResponse α) : AgentResponse α :=
  if workflow = some "new_intern_onboarding" then run "new_intern_onboarding"
  else if workflow = some "task_submission_processing" then
    run "task_submission_processing"
  else if workflow = some "periodic_review" then run "periodic_review"
  else if workflow = some "comprehensive_evaluation" then
    run "comprehensive_evaluation"
  else if workflow = some "adaptive_learning_update" then
    run "adaptive_learning_update"
  else format_response "coordinator_agent" false none "Invalid workflow type"

/-- EvaluationAgent.process : dispatch on data.get("type"). -/
def EvaluationAgent.process {α : Type} (ty : Option String)
    (run : String → AgentResponse α) : AgentResponse α :=
  if ty = some "code_submission" then run "code_submission"
  else if ty = some "project_submission" then run "project_submission"
  else if ty = some "written_assignment" then run "written_assignment"
  else if ty = some "presentation" then run "presentation"
  else if ty = some "peer_evaluation" then run "peer_evaluation"
  else format_response "evaluation_agent" false none "Invalid evaluation type"

/-- AssessmentAgent.process : dispatch on data.get("type"). -/
def AssessmentAgent.process {α : Type} (ty : Option String)
    (run : String → AgentResponse α) : AgentResponse α :=
  if ty = some "resume_analysis" then run "resume_analysis"
  else if ty = some "skill_assessment" then run "skill_assessment"
  else if ty = some "quiz_evaluation" then run "quiz_evaluation"
  else format_response "assessment_agent" false none "Invalid assessment type"

/-- CustomizationAgent.process : dispatch on data.get("type"). -/
def CustomizationAgent.process {α : Type} (ty : Option String)
    (run : String → AgentResponse α) : AgentResponse α :=
  if ty = some "learning_path" then run "learning_path"
  else if ty = some "project_plan" then run "project_plan"
  else if ty = some "task_customization" then run "task_customization"
  else format_response "customization_agent" false none "Invalid customization type"

/-- OnboardingAgent.process : dispatch on data.get("type"). -/
def OnboardingAgent.process {α : Type} (op : Option String)
    (run : String → AgentResponse α) : AgentResponse α :=
  if op = some "create_profile" then run "create_profile"
  else if op = some "generate_welcome_package" then run "generate_welcome_package"
  else if op = some "setup_learning_environment" then run "setup_learning_environment"
  else if op = some "create_onboarding_schedule" then run "create_onboarding_schedule"
  else if op = some "generate_mentor_introduction" then
    run "generate_mentor_introduction"
  else format_response "onboarding_agent" false none "Invalid onboarding operation"

/-- TaskManagerAgent.process : dispatch on data.get("operation"). -/
def TaskManagerAgent.process {α : Type} (op : Option String)
    (run : String → AgentResponse α) : AgentResponse α :=
  if op = some "allocate_tasks" then run "allocate_tasks"
  else if op = some "generate_task" then run "generate_task"
  else if op = some "monitor_progress" then run "monitor_progress"
  else if op = some "rebalance_workload" then run "rebalance_workload"
  else if op = some "predict_completion" then run "predict_completion"
  else format_response "task_manager_agent" false none "Invalid task management operation"

/-- The discriminators each dispatcher recognizes. -/
def coordinator_workflows : List String :=
  ["new_intern_onboarding", "task_submission_processing", "periodic_review",
   "comprehensive_evaluation", "adaptive_learning_update"]

def evaluation_types : List String :=
  ["code_submission", "project_submission", "written_assignment", "presentation",
   "peer_evaluation"]

def assessment_types : List String :=
  ["resume_analysis", "skill_assessment", "quiz_evaluation"]

def customization_types : List String :=
  ["learning_path", "project_plan", "task_customization"]

def onboarding_operations : List String :=
  ["create_profile", "generate_welcome_package", "setup_learning_environment",
   "create_onboarding_schedule", "generate_mentor_introduction"]

def task_manager_operations : List String :=
  ["allocate_tasks", "generate_task", "monitor_progress", "rebalance_workload",
   "predict_completion"]

/-- C7 counterexample: the coordinator, given the unrecognized workflow
discriminator bogus, returns a failure envelope whose message is
"Invalid workflow type", not "invalid operation"; the capability agents
likewise use their own messages (the evaluation agent answers
"Invalid evaluation type").  This refutes the claimed uniform message. -/
theorem invalid_operation_message_differs :
    (CoordinatorAgent.process (α := String) (some "bogus")
        (fun _ => format_response "coordinator_agent" true none "")).message
      = "Invalid workflow type" ∧
    (EvaluationAgent.process (α := String) (some "bogus")
        (fun _ => format_response "evaluation_agent" true none "")).message
      = "Invalid evaluation type" ∧
    ("Invalid workflow type" = "invalid operation") = False ∧
    ("Invalid evaluation type" = "invalid operation") = False := by decide

/-- C7 (amended): for every request whose discriminator is unrecognized (or
absent), each dispatcher returns a failure envelope — success = false, data
none, no exception raised (the model is a total function on this path) — but
the message is agent-specific: Invalid workflow type for the coordinator,
Invalid evaluation type, Invalid assessment type, Invalid customization
type, Invalid onboarding operation and Invalid task management operation for
the capability agents, not the uniform message invalid operation. -/
theorem unrecognized_discriminator_fails_without_raising {α : Type}
    (w : Option String)
    (run1 run2 run3 run4 run5 run6 : String → AgentResponse α)
    (hw : ∀ k, w = some k →
      k ∉ coordinator_workflows ++ evaluation_types ++ assessment_types
          ++ customization_types ++ onboarding_operations ++ task_manager_operations) :
    CoordinatorAgent.process w run1
      = format_response "coordinator_agent" false none "Invalid workflow type" ∧
    EvaluationAgent.process w run2
      = format_response "evaluation_agent" false none "Invalid evaluation type" ∧
    AssessmentAgent.process w run3
      = format_response "assessment_agent" false none "Invalid assessment type" ∧
    CustomizationAgent.process w run4
      = format_response "customization_agent" false none "Invalid customization type" ∧
    OnboardingAgent.process w run5
      = format_response "onboarding_agent" false none "Invalid onboarding operation" ∧
    TaskManagerAgent.process w run6
      = format_response "task_manager_agent" false none "Invalid task management operation" := by
  have hne : ∀ k : String,
      k ∈ coordinator_workflows ++ evaluation_types ++ assessment_types
          ++ customization_types ++ onboarding_operations ++ task_manager_operations →
      w ≠ some k := by
    intro k hk he
    exact hw k he hk
  refine ⟨?_, ?_, ?_, ?_, ?_, ?_⟩ <;>
    simp [CoordinatorAgent.process, EvaluationAgent.process, AssessmentAgent.process,
      CustomizationAgent.process, OnboardingAgent.process, TaskManagerAgent.process,
      hne, coordinator_workflows, evaluation_types, assessment_types,
      customization_types, onboarding_operations, task_manager_operations]

def dummyRun : String → AgentResponse String :=
  fun n => format_response "dummy" true none n

/-- Witness for C7 (amended) at the unrecognized discriminator bogus. -/
theorem unrecognized_discriminator_fails_without_raising_witness :
    (∀ k, (some "bogus" : Option String) = some k →
      k ∉ coordinator_workflows ++ evaluation_types ++ assessment_types
          ++ customization_types ++ onboarding_operations ++ task_manager_operations) ∧
    (CoordinatorAgent.process (some "bogus") dummyRun
       = format_response "coordinator_agent" false none "Invalid workflow type" ∧
     EvaluationAgent.process (some "bogus") dummyRun
       = format_response "evaluation_agent" false none "Invalid evaluation type" ∧
     AssessmentAgent.process (some "bogus") dummyRun
       = format_response "assessment_agent" false none "Invalid assessment type" ∧
     CustomizationAgent.process (some "bogus") dummyRun
       = format_response "customization_agent" false none "Invalid customization type" ∧
     OnboardingAgent.process (some "bogus") dummyRun
       = format_response "onboarding_agent" false none "Invalid onboarding operation" ∧
     TaskManagerAgent.process (some "bogus") dummyRun
       = format_response "task_manager_agent" false none
           "Invalid task management operation") :=
  ⟨fun k hk => by injection hk with h; subst h; decide,
   unrecognized_discriminator_fails_without_raising (some "bogus")
     dummyRun dummyRun dummyRun dummyRun dummyRun dummyRun
     (fun k hk => by injection hk with h; subst h; decide)⟩

/- ===================================================================
   Resilient invoker: app/services/ai_service.py, class AIService.
   safe_openai_call is decorated with tenacity
   @retry(stop=stop_after_attempt(3), wait=wait_exponential(...)) whose
   default retry predicate retries on EVERY raised exception, so the body
   runs up to three times whatever the error class; wait_exponential only
   affects the attempt times, which are supplied explicitly here.  The
   usage-tracking fields (request_count, total_tokens_used, total_cost) are
   omitted. -/

inductive OpenAIErrorKind
  | rate_limit_error
  | authentication_error
  | invalid_request_error
  | insufficient_quota_error
  | service_unavailable_error
  | timeout_error
  | unexpected_error
deriving DecidableEq, Repr

/-- The exception classes safe_openai_call raises; their messages are string
formatting only and are omitted. -/
inductive AIExn
  | aiProcessingError
  | insufficientCreditsError
deriving DecidableEq, Repr

/-- Which exception class each except-handler of safe_openai_call raises. -/
def exn_for : OpenAIErrorKind → AIExn
  | .insufficient_quota_error => .insufficientCreditsError
  | _ => .aiProcessingError

structure AIService where
  circuit_breaker_failures : ℕ
  circuit_breaker_last_failure : Option ℤ
  circuit_breaker_threshold : ℕ
  circuit_breaker_timeout : ℤ
  error_count : ℕ
  success_count : ℕ
deriving DecidableEq, Repr

/-- AIService.__init__ breaker fields: threshold 5, timeout 300s. -/
def mkAIService : AIService := ⟨0, none, 5, 300, 0, 0⟩

/-- AIService._is_circuit_breaker_open, which also resets the counters when
strictly more than the timeout has passed since the last failure. -/
def is_circuit_breaker_open (s : AIService) (now : ℤ) : Bool × AIService :=
  if s.circuit_breaker_failures < s.circuit_breaker_threshold then (false, s)
  else
    match s.circuit_breaker_last_failure with
    | some t =>
      if s.circuit_breaker_timeout < now - t then
        (false, { s with circuit_breaker_failures := 0,
                         circuit_breaker_last_failure := none })
      else (true, s)
    | none => (true, s)

/-- AIService._record_failure . -/
def record_failure_service (s : AIService) (now : ℤ) : AIService :=
  { s with circuit_breaker_failures := s.circuit_breaker_failures + 1,
           circuit_breaker_last_failure := some now,
           error_count := s.error_count + 1 }

/-- AIService._record_success : max(0, failures - 1) is natural-number
truncated subtraction. -/
def record_success_service (s : AIService) : AIService :=
  { s with circuit_breaker_failures := s.circuit_breaker_failures - 1,
           success_count := s.success_count + 1 }

/-- One run of the body of safe_openai_call: the raised exception if any,
the new state, and whether the network call was performed.  net = none
models a successful openai.ChatCompletion.acreate; net = some e a call
raising error class e (every handler records the failure, then raises). -/
def safe_openai_call_once (s : AIService) (now : ℤ) (net : Option OpenAIErrorKind) :
    Option AIExn × AIService × Bool :=
  match is_circuit_breaker_open s now with
  | (true, s) => (some .aiProcessingError, s, false)
  | (false, s) =>
    match net with
    | none => (none, record_success_service s, true)
    | some e => (some (exn_for e), record_failure_service s now, true)

/-- The tenacity retry loop: each list element is one permitted attempt
(time, network outcome); any raised exception triggers a retry while
attempts remain, and the exception of the last attempt propagates (wrapped in
RetryError by tenacity).  Returns (outcome, final state, number of network
calls actually performed). -/
def retry_loop (s : AIService) : List (ℤ × Option OpenAIErrorKind) →
    Option AIExn × AIService × ℕ
  | [] => (none, s, 0)
  | [a] =>
    let r := safe_openai_call_once s a.1 a.2
    (r.1, r.2.1, if r.2.2 then 1 else 0)
  | a :: rest =>
    let r := safe_openai_call_once s a.1 a.2
    match r.1 with
    | none => (none, r.2.1, if r.2.2 then 1 else 0)
    | some _ =>
      let r2 := retry_loop r.2.1 rest
      (r2.1, r2.2.1, (if r.2.2 then 1 else 0) + r2.2.2)

/-- safe_openai_call under @retry(stop=stop_after_attempt(3)) : up to three
attempts with the supplied times and network outcomes. -/
def safe_openai_call (s : AIService) (a1 a2 a3 : ℤ × Option OpenAIErrorKind) :
    Option AIExn × AIService × ℕ :=
  retry_loop s [a1, a2, a3]

/-- C3 counterexample: a call whose network attempts keep failing with
InvalidRequestError — a non-retryable error per the spec — performs three
network calls, not one: the blanket tenacity decorator retries it twice
before giving up.  The failures are recorded to the breaker counters (three
times), and the final outcome is the AIProcessingError raised by the
invalid-request handler.  This refutes failing immediately without any
retry attempt. -/
theorem nonretryable_error_still_retried :
    (safe_openai_call mkAIService (0, some .invalid_request_error)
        (4, some .invalid_request_error) (10, some .invalid_request_error)).2.2 = 3 ∧
    (safe_openai_call mkAIService (0, some .invalid_request_error)
        (4, some .invalid_request_error) (10, some .invalid_request_error)).1
      = some .aiProcessingError ∧
    (safe_openai_call mkAIService (0, some .invalid_request_error)
        (4, some .invalid_request_error)
        (10, some .invalid_request_error)).2.1.circuit_breaker_failures = 3 ∧
    (safe_openai_call mkAIService (0, some .invalid_request_error)
        (4, some .invalid_request_error)
        (10, some .invalid_request_error)).2.1.error_count = 3 := by decide

/-- C3 (amended): while the service breaker stays closed, an outbound call
that keeps failing with any error class e — including the non-retryable
classes invalid request, authentication failure and quota exhausted — is
attempted three times (two retries) by the blanket tenacity decorator; each
attempt records a failure to the breaker counters of the service, and the final
exception is the one mapped from e (InsufficientCreditsError for quota
exhaustion, AIProcessingError otherwise). -/
theorem every_error_class_retried_three_times (s : AIService) (t1 t2 t3 : ℤ)
    (e : OpenAIErrorKind)
    (hclosed : s.circuit_breaker_failures + 3 ≤ s.circuit_breaker_threshold) :
    (safe_openai_call s (t1, some e) (t2, some e) (t3, some e)).2.2 = 3 ∧
    (safe_openai_call s (t1, some e) (t2, some e) (t3, some e)).1 = some (exn_for e) ∧
    (safe_openai_call s (t1, some e) (t2, some e)
        (t3, some e)).2.1.circuit_breaker_failures
      = s.circuit_breaker_failures + 3 ∧
    (safe_openai_call s (t1, some e) (t2, some e)
        (t3, some e)).2.1.circuit_breaker_last_failure = some t3 ∧
    (safe_openai_call s (t1, some e) (t2, some e) (t3, some e)).2.1.error_count
      = s.error_count + 3 ∧
    (safe_openai_call s (t1, some e) (t2, some e) (t3, some e)).2.1.success_count
      = s.success_count := by
  have hA : s.circuit_breaker_failures < s.circuit_breaker_threshold := by omega
  have hB : s.circuit_breaker_failures + 1 < s.circuit_breaker_threshold := by omega
  have hC : s.circuit_breaker_failures + 1 + 1 < s.circuit_breaker_threshold := by omega
  refine ⟨?_, ?_, ?_, ?_, ?_, ?_⟩ <;>
    simp [safe_openai_call, retry_loop, safe_openai_call_once,
      is_circuit_breaker_open, record_failure_service, hA, hB, hC]

/-- Witness for C3 (amended): fresh service state, persistent invalid
request errors at times 0, 4, 10. -/
theorem every_error_class_retried_three_times_witness :
    (mkAIService.circuit_breaker_failures + 3 ≤ mkAIService.circuit_breaker_threshold) ∧
    ((safe_openai_call mkAIService (0, some .invalid_request_error)
        (4, some .invalid_request_error) (10, some .invalid_request_error)).2.2 = 3 ∧
     (safe_openai_call mkAIService (0, some .invalid_request_error)
        (4, some .invalid_request_error) (10, some .invalid_request_error)).1
       = some (exn_for .invalid_request_error) ∧
     (safe_openai_call mkAIService (0, some .invalid_request_error)
        (4, some .invalid_request_error)
        (10, some .invalid_request_error)).2.1.circuit_breaker_failures
       = mkAIService.circuit_breaker_failures + 3 ∧
     (safe_openai_call mkAIService (0, some .invalid_request_error)
        (4, some .invalid_request_error)
        (10, some .invalid_request_error)).2.1.circuit_breaker_last_failure = some 10 ∧
     (safe_openai_call mkAIService (0, some .invalid_request_error)
        (4, some .invalid_request_error)
        (10, some .invalid_request_error)).2.1.error_count
       = mkAIService.error_count + 3 ∧
     (safe_openai_call mkAIService (0, some .invalid_request_error)
        (4, some .invalid_request_error)
        (10, some .invalid_request_error)).2.1.success_count
       = mkAIService.success_count) :=
  ⟨by decide, every_error_class_retried_three_times mkAIService 0 4 10
     .invalid_request_error (by decide)⟩

/-- C8 counterexample: the claim also covers AIService._record_success
(ai_service.py lines 95 to 98), which merely decrements the counter:
with the service breaker closed (3 recorded failures, threshold 5), a
successful call leaves circuit_breaker_failures at max(0, 3 - 1) = 2,
not 0. -/
theorem service_success_only_decrements :
    (is_circuit_breaker_open ⟨3, some 0, 5, 300, 3, 0⟩ 1).1 = false ∧
    (safe_openai_call_once ⟨3, some 0, 5, 300, 3, 0⟩ 1
        none).2.1.circuit_breaker_failures = 2 := by decide

/-- C8 (amended): a successful call recorded while AICircuitBreaker is
CLOSED sets its failure_count to exactly 0 (on_success assigns 0), and a
single failure that leaves that breaker CLOSED followed by an isolated
success leaves the counter at 0; the AIService-level breaker, however, only
decrements: _record_success sets circuit_breaker_failures to
max(0, failures - 1), so a success after several accumulated failures does
not clear the counter there. -/
theorem closed_success_resets_failure_count (s : AICircuitBreaker) (t1 t2 : ℤ)
    (h : s.state = .CLOSED) :
    ((call_with_fallback s t2 true).1 = CallEffect.invoked ∧
     (call_with_fallback s t2 true).2.failure_count = 0) ∧
    (s.failure_count + 1 < s.failure_threshold →
      (call_with_fallback (call_with_fallback s t1 false).2 t2 true).2.failure_count
        = 0) ∧
    (∀ (sv : AIService) (t3 : ℤ),
      (record_success_service sv).circuit_breaker_failures
        = sv.circuit_breaker_failures - 1 ∧
      (sv.circuit_breaker_failures < sv.circuit_breaker_threshold →
        (safe_openai_call_once sv t3 none).2.1.circuit_breaker_failures
          = sv.circuit_breaker_failures - 1)) := by
  refine ⟨?_, ?_, ?_⟩
  · refine ⟨?_, closed_success_zero s t2 h⟩
    rw [call_closed_success s t2 h]
  · intro hlt
    have h1state : (call_with_fallback s t1 false).2.state = CircuitState.CLOSED := by
      rw [call_closed_failure s t1 h,
          on_failure_below { s with total_requests := s.total_requests + 1 } t1
            (show s.failure_count + 1 < s.failure_threshold from hlt)]
      exact h
    exact closed_success_zero _ t2 h1state
  · intro sv t3
    constructor
    · simp [record_success_service]
    · intro hlt
      simp [safe_openai_call_once, is_circuit_breaker_open, record_success_service,
        hlt]

/-- Witness for C8 (amended) at a fresh AICircuitBreaker (threshold 3,
timeout 300) with a failure at time 10 and a success at time 20. -/
theorem closed_success_resets_failure_count_witness :
    ((mkBreaker 3 300).state = .CLOSED) ∧
    (((call_with_fallback (mkBreaker 3 300) 20 true).1 = CallEffect.invoked ∧
      (call_with_fallback (mkBreaker 3 300) 20 true).2.failure_count = 0) ∧
     ((mkBreaker 3 300).failure_count + 1 < (mkBreaker 3 300).failure_threshold →
       (call_with_fallback (call_with_fallback (mkBreaker 3 300) 10 false).2
          20 true).2.failure_count = 0) ∧
     (∀ (sv : AIService) (t3 : ℤ),
       (record_success_service sv).circuit_breaker_failures
         = sv.circuit_breaker_failures - 1 ∧
       (sv.circuit_breaker_failures < sv.circuit_breaker_threshold →
         (safe_openai_call_once sv t3 none).2.1.circuit_breaker_failures
           = sv.circuit_breaker_failures - 1))) :=
  ⟨by decide, closed_success_resets_failure_count (mkBreaker 3 300) 10 20 (by decide)⟩

/- ===================================================================
   Cache service: app/services/cache_service.py, class CacheService.
   Cached values and their serialized representation are abstract types; the
   pickle/json (de)serializers are parameters, and a serializer returning
   none models a raised (de)serialization error.  The redis client is either
   absent (None after a failed initialize), present with a key-value store,
   or present but raising on every operation.  The local fallback cache is
   an insertion-ordered dict.  The asyncio.create_task TTL expiry of local
   keys is asynchronous deletion and does not affect the returned values
   modelled here; the ttl argument only selects setex over set on the redis
   path.  The write into redis itself is external state and is not carried
   in the result.
   =================================================================== -/

inductive RedisBehavior (β : Type)
  | absent
  | present (store : String → Option β)
  | erroring

/-- CacheService.get : redis is tried first when the client exists (a raised
redis error is caught and yields the default); on a redis hit the value is
deserialized with pickle, then with the json fallback, and a second failure
is caught by the outer handler (default); on a redis miss or absent client
the local cache supplies the value or the default. -/
def CacheService.get {α β : Type} (pickle_loads json_loads : β → Option α)
    (redis : RedisBehavior β) (local_cache : List (String × α))
    (key : String) (dflt : α) : α :=
  match redis with
  | .erroring => dflt
  | .present store =>
    match store key with
    | some raw =>
      match pickle_loads raw with
      | some v => v
      | none =>
        match json_loads raw with
        | some v => v
        | none => dflt
    | none => (alookup local_cache key).getD dflt
  | .absent => (alookup local_cache key).getD dflt

/-- CacheService._manage_local_cache_size : once the local cache reaches the
cap, drop the oldest tenth (int(0.1 * max) keys in insertion order). -/
def manage_local_cache_size {α : Type} (local_cache : List (String × α))
    (max_size : ℕ) : List (String × α) :=
  if max_size ≤ local_cache.length then local_cache.drop (max_size / 10)
  else local_cache

/-- CacheService.set : a serialization error is caught and returns False; a
raised redis error is caught and returns False; with redis present the
serialized value is written there (setex when ttl is truthy) and the local
cache is untouched; with redis absent the value lands in the size-managed
local cache.  Returns the success flag and the new local cache. -/
def CacheService.set {α β : Type} (serialize : α → Option β)
    (redis : RedisBehavior β) (local_cache : List (String × α))
    (local_cache_max_size : ℕ) (key : String) (value : α) (_ttl : Option ℕ) :
    Bool × List (String × α) :=
  match serialize value with
  | none => (false, local_cache)
  | some _ =>
    match redis with
    | .erroring => (false, local_cache)
    | .present _ => (true, local_cache)
    | .absent =>
      let lc := manage_local_cache_size local_cache local_cache_max_size
      (true, aset lc key value)

/-- C10: CacheService.get always returns a value — the deserialized redis
value, the local-cache value, or the supplied default — and never raises
(every failure path lands on the default); CacheService.set always returns
a Bool, False exactly when serialization fails or the redis write raises,
True otherwise. -/
theorem cache_get_returns_value_or_default_and_set_returns_bool
    {α β : Type} (pickle_loads json_loads : β → Option α)
    (serialize : α → Option β) (store : String → Option β)
    (lc : List (String × α)) (maxs : ℕ)
    (key kmiss k1 k2 k3 : String) (dflt : α) (r1 r2 r3 : β) (w1 w2 : α)
    (v1 v2 : α) (b2 : β) (ttl : Option ℕ)
    (hmiss : store kmiss = none)
    (hh1 : store k1 = some r1) (hp1 : pickle_loads r1 = some w1)
    (hh2 : store k2 = some r2) (hp2 : pickle_loads r2 = none)
    (hj2 : json_loads r2 = some w2)
    (hh3 : store k3 = some r3) (hp3 : pickle_loads r3 = none)
    (hj3 : json_loads r3 = none)
    (hs1 : serialize v1 = none) (hs2 : serialize v2 = some b2) :
    CacheService.get pickle_loads json_loads .erroring lc key dflt = dflt ∧
    CacheService.get pickle_loads json_loads .absent lc key dflt
      = (alookup lc key).getD dflt ∧
    CacheService.get pickle_loads json_loads (.present store) lc kmiss dflt
      = (alookup lc kmiss).getD dflt ∧
    CacheService.get pickle_loads json_loads (.present store) lc k1 dflt = w1 ∧
    CacheService.get pickle_loads json_loads (.present store) lc k2 dflt = w2 ∧
    CacheService.get pickle_loads json_loads (.present store) lc k3 dflt = dflt ∧
    (∀ r : RedisBehavior β,
      CacheService.set serialize r lc maxs key v1 ttl = (false, lc)) ∧
    CacheService.set serialize .erroring lc maxs key v2 ttl = (false, lc) ∧
    CacheService.set serialize (.present store) lc maxs key v2 ttl = (true, lc) ∧
    CacheService.set serialize .absent lc maxs key v2 ttl
      = (true, aset (manage_local_cache_size lc maxs) key v2) := by
  refine ⟨rfl, rfl, ?_, ?_, ?_, ?_, ?_, ?_, ?_, ?_⟩
  · simp [CacheService.get, hmiss]
  · simp [CacheService.get, hh1, hp1]
  · simp [CacheService.get, hh2, hp2, hj2]
  · simp [CacheService.get, hh3, hp3, hj3]
  · intro r; cases r <;> simp [CacheService.set, hs1]
  · simp [CacheService.set, hs2]
  · simp [CacheService.set, hs2]
  · simp [CacheService.set, hs2]

/-- Witness for C10 with string keys and values. -/
theorem cache_get_set_witness :
    (((fun k => if k = "k1" then some "r1" else if k = "k2" then some "r2"
        else if k = "k3" then some "r3" else none) : String → Option String)
          "km" = none ∧
     ((fun b => if b = "r1" then some "w1" else none) : String → Option String)
          "r1" = some "w1" ∧
     ((fun a => if a = "bad" then none else some a) : String → Option String)
          "bad" = none) ∧
    (CacheService.get (fun b => if b = "r1" then some "w1" else none)
        (fun b => if b = "r2" then some "w2" else none)
        (.present (fun k => if k = "k1" then some "r1" else if k = "k2" then some "r2"
          else if k = "k3" then some "r3" else none))
        [("kloc", "vloc")] "k1" "default" = "w1" ∧
     CacheService.get (fun b => if b = "r1" then some "w1" else none)
        (fun b => if b = "r2" then some "w2" else none)
        (.present (fun k => if k = "k1" then some "r1" else if k = "k2" then some "r2"
          else if k = "k3" then some "r3" else none))
        [("kloc", "vloc")] "k3" "default" = "default" ∧
     CacheService.set (fun a => if a = "bad" then none else some a)
        (.absent) [("kloc", "vloc")] 1000 "knew" "good" (some 60)
       = (true, aset (manage_local_cache_size [("kloc", "vloc")] 1000) "knew" "good")) := by
  have h := cache_get_returns_value_or_default_and_set_returns_bool
    (α := String) (β := String)
    (fun b => if b = "r1" then some "w1" else none)
    (fun b => if b = "r2" then some "w2" else none)
    (fun a => if a = "bad" then none else some a)
    (fun k => if k = "k1" then some "r1" else if k = "k2" then some "r2"
      else if k = "k3" then some "r3" else none)
    [("kloc", "vloc")] 1000 "knew" "km" "k1" "k2" "k3" "default" "r1" "r2" "r3"
    "w1" "w2" "bad" "good" "good" (some 60)
    (by decide) (by decide) (by decide) (by decide) (by decide) (by decide)
    (by decide) (by decide) (by decide) (by decide) (by decide)
  exact ⟨⟨by decide, by decide, by decide⟩,
    h.2.2.2.1, h.2.2.2.2.2.1, h.2.2.2.2.2.2.2.2.2⟩
